import Mathlib

set_option maxRecDepth 100000

/-!
Shallow embedding of the ai-NES emulator core: the standard controller
(src/ai-nes/src/controller.js), the CPU bus, interrupt dispatch and opcode
table (src/ai-nes/src/compatibility.js), and the mappers NROM
(Mapper000), CNROM (Mapper003) and MMC3 (Mapper004).  JavaScript numbers
are modelled as `Nat`; typed-array stores (`Uint8Array`) truncate with
`&&& 0xFF`; JavaScript `undefined` returns become `Option.none`.
-/

/-- State of one standard controller (controller.js, constructor). -/
structure Controller where
  currentState : Nat
  strobedState : Nat
  strobeByte : Nat
  shiftRegister : Nat
deriving DecidableEq, Repr

/-- Power-on controller state: every field starts at zero. -/
def Controller.powerOn : Controller := ⟨0, 0, 0, 0⟩

/-- Controller.read (controller.js lines 12-29): value returned on a CPU
read of $4016/$4017.  The read itself does not mutate the controller. -/
def Controller.read (c : Controller) : Nat :=
  let ret :=
    if c.strobeByte = 1 then
      c.currentState &&& 1
    else if c.shiftRegister < 8 then
      (c.strobedState >>> c.shiftRegister) &&& 1
    else
      1
  0x40 ||| ret

/-- Controller.clock (controller.js lines 33-37): advance the shift
register after a read, saturating at 8 while the strobe line is low. -/
def Controller.clock (c : Controller) : Controller :=
  if c.strobeByte = 0 ∧ c.shiftRegister < 8 then
    { c with shiftRegister := c.shiftRegister + 1 }
  else c

/-- Controller.strobe (controller.js lines 40-47): latch the current
button state on the 1 -> 0 edge of bit 0, then record the new strobe bit. -/
def Controller.strobe (c : Controller) (data : Nat) : Controller :=
  let c1 :=
    if c.strobeByte = 1 ∧ data &&& 1 = 0 then
      { c with strobedState := c.currentState, shiftRegister := 0 }
    else c
  { c1 with strobeByte := data &&& 1 }

/-- Controller._getDuplicateMask (controller.js lines 50-58). -/
def Controller.getDuplicateMask (buttonIndex : Nat) : Nat :=
  match buttonIndex with
  | 4 => 0xDF
  | 5 => 0xEF
  | 6 => 0x7F
  | 7 => 0xBF
  | _ => 0xFF

/-- Controller.buttonDown (controller.js lines 60-65). -/
def Controller.buttonDown (c : Controller) (button : Nat) : Controller :=
  let s := c.currentState ||| (1 <<< button)
  { c with currentState := s &&& Controller.getDuplicateMask button }

/-- Controller.buttonUp (controller.js lines 67-70). -/
def Controller.buttonUp (c : Controller) (button : Nat) : Controller :=
  { c with currentState := c.currentState &&& (0xFF ^^^ (1 <<< button)) }

/-- Iterate `Controller.clock` a given number of times. -/
def Controller.clockN : Nat → Controller → Controller
  | 0, c => c
  | n + 1, c => Controller.clockN n c.clock

/-- An input-mutation event on a controller port. -/
inductive ButtonEvent where
  | down (button : Nat)
  | up (button : Nat)
deriving DecidableEq, Repr

/-- Apply a finite sequence of buttonDown/buttonUp calls. -/
def Controller.applyEvents (c : Controller) : List ButtonEvent → Controller
  | [] => c
  | ButtonEvent.down b :: rest => (c.buttonDown b).applyEvents rest
  | ButtonEvent.up b :: rest => (c.buttonUp b).applyEvents rest

/-- Buttons of an event, used to restrict to the eight real buttons. -/
def ButtonEvent.button : ButtonEvent → Nat
  | ButtonEvent.down b => b
  | ButtonEvent.up b => b

/-- Interrupt-relevant CPU state (compatibility.js CPU): the single pending
request latch `irqRequested`, its kind `irqType` (0 = NORMAL, 1 = NMI,
2 = RESET) and the interrupt-disable flag. -/
structure CpuInt where
  irqRequested : Bool
  irqType : Nat
  fInterrupt : Nat
deriving DecidableEq, Repr

/-- CPU.requestIrq (compatibility.js lines 513-517): a NORMAL request is
dropped while any request is pending; NMI/RESET overwrite the slot. -/
def CpuInt.requestIrq (s : CpuInt) (t : Nat) : CpuInt :=
  if s.irqRequested ∧ t = 0 then s
  else { s with irqRequested := true, irqType := t }

/-- CPU.clearIrq (compatibility.js lines 519-523). -/
def CpuInt.clearIrq (s : CpuInt) (t : Nat) : CpuInt :=
  if s.irqRequested ∧ s.irqType = t then { s with irqRequested := false }
  else s

/-- Interrupt dispatch at the top of CPU.emulate (compatibility.js lines
254-284).  Returns the new interrupt state and the kind of handler taken
(`none` when no interrupt is serviced).  A serviced NORMAL IRQ and an NMI
set the interrupt-disable flag (doIrq / doNonMaskableInterrupt write
F_INTERRUPT_NEW = 1, copied back at line 276); a masked NORMAL IRQ is
skipped; the request flag is cleared only when `irqType` is not 0. -/
def CpuInt.dispatch (s : CpuInt) : CpuInt × Option Nat :=
  if s.irqRequested then
    let serviced : Option Nat :=
      if s.irqType = 0 then
        if s.fInterrupt ≠ 0 then none else some 0
      else if s.irqType = 1 then some 1
      else if s.irqType = 2 then some 2
      else none
    let s1 :=
      match serviced with
      | some 0 => { s with fInterrupt := 1 }
      | some 1 => { s with fInterrupt := 1 }
      | _ => s
    let s2 := if s1.irqType ≠ 0 then { s1 with irqRequested := false } else s1
    (s2, serviced)
  else (s, none)

/-- External devices seen by the CPU bus (PPU registers, APU registers,
mapper, Zapper light sensing), modelled as oracles: the claims about the
bus latch hold for every behaviour of these collaborators. -/
structure Devices where
  ppuReadReg : Nat → Nat
  papuPresent : Bool
  papuReadReg : Nat → Option Nat
  mmapRead : Nat → Option Nat
  zapperLight : Bool
  zapperFired : Bool

/-- CPU bus state relevant to cpuRead/cpuWrite (compatibility.js): the
2 KiB internal RAM, the open-bus data latch, both controllers and the
per-instruction controller-read flags. -/
structure CpuBus where
  mem : Nat → Nat
  dataBus : Nat
  controller1 : Controller
  controller2 : Controller
  controller1Read : Bool
  controller2Read : Bool

/-- CPU.cpuRead (compatibility.js lines 115-185).  Every branch computes a
`value`; the data-bus latch is updated with it before it is returned.
The $4017 path ORs in the Zapper light/trigger bits exactly as lines
161-162 do; the PPU catch-up calls advance only external state. -/
def CpuBus.cpuRead (d : Devices) (s : CpuBus) (addr : Nat) : Nat × CpuBus :=
  if addr < 0x2000 then
    let value := s.mem (addr &&& 0x7FF)
    (value, { s with dataBus := value })
  else if addr < 0x4000 then
    let value := d.ppuReadReg (addr &&& 0x0007)
    (value, { s with dataBus := value })
  else if addr < 0x4020 then
    if addr = 0x4016 then
      let value := s.controller1.read
      (value, { s with dataBus := value, controller1Read := true })
    else if addr = 0x4017 then
      let ret0 := s.controller2.read
      let ret1 := if !d.zapperLight then ret0 ||| 0x08 else ret0
      let ret2 := if !d.zapperFired then ret1 ||| 0x10 else ret1
      (ret2, { s with dataBus := ret2, controller2Read := true })
    else if d.papuPresent then
      let value :=
        match d.papuReadReg addr with
        | some v => v
        | none => s.dataBus
      (value, { s with dataBus := value })
    else
      (s.dataBus, { s with dataBus := s.dataBus })
  else
    let value :=
      match d.mmapRead addr with
      | some v => v
      | none => s.dataBus
    (value, { s with dataBus := value })

/-- CPU.cpuWrite (compatibility.js lines 195-236).  The data-bus latch is
updated with the written value first; RAM stores truncate to a byte
(Uint8Array); $4016 strobes both controllers; PPU/APU/mapper writes only
change external state. -/
def CpuBus.cpuWrite (s : CpuBus) (addr val : Nat) : CpuBus :=
  let s0 := { s with dataBus := val }
  if addr < 0x2000 then
    { s0 with mem := fun i => if i = (addr &&& 0x7FF) then val &&& 0xFF else s0.mem i }
  else if addr < 0x4000 then
    s0
  else if addr < 0x4020 then
    if addr = 0x4014 then s0
    else if addr = 0x4016 then
      { s0 with controller1 := s0.controller1.strobe val,
                controller2 := s0.controller2.strobe val }
    else s0
  else s0

/-- CPU.stepControllers (compatibility.js lines 500-511): clock only a
controller whose read flag was set during the instruction, then clear
the flag. -/
def CpuBus.stepControllers (s : CpuBus) : CpuBus :=
  let s1 :=
    if s.controller1Read then
      { s with controller1 := s.controller1.clock, controller1Read := false }
    else s
  if s1.controller2Read then
    { s1 with controller2 := s1.controller2.clock, controller2Read := false }
  else s1

/-- Run the reads an instruction performs, in order, threading the bus
state (each read is CPU.cpuRead; its value feeds the instruction only). -/
def CpuBus.runReads (d : Devices) (s : CpuBus) : List Nat → CpuBus
  | [] => s
  | a :: rest => CpuBus.runReads d (CpuBus.cpuRead d s a).2 rest

/-- Mapper 000 (NROM) state (src/unnamed/part_002): fixed PRG mapping
plus optional 8 KiB PRG-RAM.  `prgPagesMap` is the mapper-base PRG page
map (four 8 KiB slots of byte offsets into `prgData`). -/
structure Mapper000 where
  prgRam : Nat → Nat
  prgData : Nat → Nat
  hasPrgData : Bool
  prgBankCount : Nat
  prgPagesMap : Nat → Nat

/-- Mapper000.cpuRead (part_002 lines 57-75).  Addresses below $6000
return JavaScript `undefined`, modelled as `none`. -/
def Mapper000.cpuRead (m : Mapper000) (address : Nat) : Option Nat :=
  if 0x6000 ≤ address ∧ address < 0x8000 then
    some (m.prgRam (address - 0x6000))
  else if 0x8000 ≤ address then
    if !m.hasPrgData ∨ m.prgBankCount = 0 then some 0
    else
      some (m.prgData (m.prgPagesMap ((address >>> 13) &&& 0x03)
                        + (address &&& 0x1FFF)))
  else none

/-- Mapper000.cpuWrite (part_002 lines 77-83): PRG-RAM stores truncate to
a byte (Uint8Array); writes to $8000+ are ignored. -/
def Mapper000.cpuWrite (m : Mapper000) (address data : Nat) : Mapper000 :=
  if 0x6000 ≤ address ∧ address < 0x8000 then
    { m with prgRam := fun i =>
        if i = address - 0x6000 then data &&& 0xFF else m.prgRam i }
  else m

/-- Mapper 003 (CNROM) state (src/ai-nes/src/mappers/mapper003.js):
the CHR bank register plus the mapper-base page maps and ROM geometry
(`prg32kBankCount`/`prg16kBankCount` stand for the mapper-base
get32kPrgBankCount/get16kPrgBankCount accessors). -/
structure Mapper003 where
  chrBank : Nat
  prgData : Nat → Nat
  prgPagesMap : Nat → Nat
  chrPagesMap : Nat → Nat
  prg32kBankCount : Nat
  prg16kBankCount : Nat

/-- Modelled from the spec: the mapper-base bank-switch helper
`switch32kPrgBank` is not under src/; per the spec the framework switches
a 32 KiB PRG bank into the four 8 KiB slots of the PRG page map, indexed
into the linear PRG array. -/
def Mapper003.switch32kPrgBank (m : Mapper003) (bank : Nat) : Mapper003 :=
  { m with prgPagesMap := fun slot => bank * 0x8000 + (slot &&& 0x03) * 0x2000 }

/-- Modelled from the spec: the mapper-base helper `switch16kPrgBank` is
not under src/; it maps a 16 KiB PRG bank into the lower
($8000-$BFFF, slots 0-1) or upper ($C000-$FFFF, slots 2-3) half of the
PRG page map. -/
def Mapper003.switch16kPrgBank (m : Mapper003) (bank : Nat) (low : Bool) :
    Mapper003 :=
  { m with prgPagesMap := fun slot =>
      if low then
        if slot &&& 0x03 < 2 then bank * 0x4000 + (slot &&& 0x03) * 0x2000
        else m.prgPagesMap slot
      else
        if 2 ≤ slot &&& 0x03 then bank * 0x4000 + ((slot &&& 0x03) - 2) * 0x2000
        else m.prgPagesMap slot }

/-- Modelled from the spec: the mapper-base helper `switch8kChrBank` is
not under src/; it maps an 8 KiB CHR bank into the eight 1 KiB slots of
the CHR page map. -/
def Mapper003.switch8kChrBank (m : Mapper003) (bank : Nat) : Mapper003 :=
  { m with chrPagesMap := fun slot => bank * 0x2000 + (slot &&& 0x07) * 0x400 }

/-- Mapper003.updateBanks (mapper003.js lines 35-48): re-fix the PRG
mapping (32 KiB bank 0, or a mirrored 16 KiB bank 0) and switch the
selected 8 KiB CHR bank. -/
def Mapper003.updateBanks (m : Mapper003) : Mapper003 :=
  let m1 :=
    if m.prg32kBankCount > 0 then m.switch32kPrgBank 0
    else (m.switch16kPrgBank 0 true).switch16kPrgBank 0 false
  m1.switch8kChrBank m1.chrBank

/-- Mapper003.cpuRead (mapper003.js lines 50-57). -/
def Mapper003.cpuRead (m : Mapper003) (address : Nat) : Option Nat :=
  if 0x8000 ≤ address then
    some (m.prgData (m.prgPagesMap ((address >>> 13) &&& 0x03)
                      + (address &&& 0x1FFF)))
  else none

/-- Mapper003.cpuWrite (mapper003.js lines 59-72): a write to $8000+ sets
the CHR bank to the written value ANDed with the ROM byte currently
mapped at the written address (bus conflict), keeping the low 2 bits,
then re-runs updateBanks. -/
def Mapper003.cpuWrite (m : Mapper003) (address data : Nat) : Mapper003 :=
  if 0x8000 ≤ address then
    let slot := (address >>> 13) &&& 0x03
    let offset := address &&& 0x1FFF
    let romValue := m.prgData (m.prgPagesMap slot + offset)
    Mapper003.updateBanks { m with chrBank := (data &&& romValue) &&& 0x03 }
  else m

/-- Mapper 004 (MMC3) state (src/unnamed/part_003): the eight bank-data
registers (Uint8Array `reg`), mode bits, IRQ unit, PRG-RAM control, and
the PRG/CHR offset tables.  `chr1kBankCount`/`prg8kBankCount` stand for
the mapper-base get1kChrBankCount/get8kPrgBankCount geometry accessors
(mapper-base is not under src/; per the spec they count the 1 KiB CHR and
8 KiB PRG banks of the cartridge). -/
structure Mapper004 where
  reg : Nat → Nat
  prgMode : Nat
  chrMode : Nat
  bankSelect : Nat
  irqEnabled : Bool
  irqCounter : Nat
  irqLatch : Nat
  irqReload : Bool
  prgRamEnabled : Bool
  prgRamWriteProtect : Bool
  prgRam : Nat → Nat
  prgData : Nat → Nat
  prgOffsets : Nat → Nat
  chrOffsets : Nat → Nat
  chr1kBankCount : Nat
  prg8kBankCount : Nat

/-- Mapper004.updateBanks (part_003 lines 175-212): recompute the CHR and
PRG offset tables from the bank registers, the mode bits and the bank
masks; the $E000 slot is always fixed to the last 8 KiB PRG bank. -/
def Mapper004.updateBanks (m : Mapper004) : Mapper004 :=
  let chrMask := if m.chr1kBankCount > 0 then m.chr1kBankCount - 1 else 0
  let chrOffsets : Nat → Nat :=
    if m.chrMode = 0 then
      fun slot =>
        match slot with
        | 0 => ((m.reg 0 &&& 0xFE) &&& chrMask) <<< 10
        | 1 => ((m.reg 0 ||| 0x01) &&& chrMask) <<< 10
        | 2 => ((m.reg 1 &&& 0xFE) &&& chrMask) <<< 10
        | 3 => ((m.reg 1 ||| 0x01) &&& chrMask) <<< 10
        | 4 => (m.reg 2 &&& chrMask) <<< 10
        | 5 => (m.reg 3 &&& chrMask) <<< 10
        | 6 => (m.reg 4 &&& chrMask) <<< 10
        | 7 => (m.reg 5 &&& chrMask) <<< 10
        | _ => m.chrOffsets slot
    else
      fun slot =>
        match slot with
        | 0 => (m.reg 2 &&& chrMask) <<< 10
        | 1 => (m.reg 3 &&& chrMask) <<< 10
        | 2 => (m.reg 4 &&& chrMask) <<< 10
        | 3 => (m.reg 5 &&& chrMask) <<< 10
        | 4 => ((m.reg 0 &&& 0xFE) &&& chrMask) <<< 10
        | 5 => ((m.reg 0 ||| 0x01) &&& chrMask) <<< 10
        | 6 => ((m.reg 1 &&& 0xFE) &&& chrMask) <<< 10
        | 7 => ((m.reg 1 ||| 0x01) &&& chrMask) <<< 10
        | _ => m.chrOffsets slot
  let prgMask := if m.prg8kBankCount > 0 then m.prg8kBankCount - 1 else 0
  let prgOffsets : Nat → Nat :=
    if m.prgMode = 0 then
      fun slot =>
        match slot with
        | 0 => (m.reg 6 &&& prgMask) <<< 13
        | 1 => (m.reg 7 &&& prgMask) <<< 13
        | 2 => (m.prg8kBankCount - 2) <<< 13
        | 3 => (m.prg8kBankCount - 1) <<< 13
        | _ => m.prgOffsets slot
    else
      fun slot =>
        match slot with
        | 0 => (m.prg8kBankCount - 2) <<< 13
        | 1 => (m.reg 7 &&& prgMask) <<< 13
        | 2 => (m.reg 6 &&& prgMask) <<< 13
        | 3 => (m.prg8kBankCount - 1) <<< 13
        | _ => m.prgOffsets slot
  { m with chrOffsets := chrOffsets, prgOffsets := prgOffsets }

/-- Mapper004.reset (part_003 lines 32-37): a soft reset clears no MMC3
register and only re-fixes the $E000-$FFFF slot to the last 8 KiB PRG
bank. -/
def Mapper004.reset (m : Mapper004) : Mapper004 :=
  { m with prgOffsets := fun slot =>
      if slot = 3 then (m.prg8kBankCount - 1) <<< 13 else m.prgOffsets slot }

/-- Mapper004.cpuWrite (part_003 lines 76-138).  PRG-RAM stores (enabled
and not write-protected) truncate to a byte; $8000/$8001 drive bank
select/data and rerun updateBanks; $A001 sets the PRG-RAM control bits;
$C000/$C001 set the IRQ latch / reload flag; $E000/$E001 disable (and
acknowledge on the CPU, an external effect) or enable the IRQ. -/
def Mapper004.cpuWrite (m : Mapper004) (address data : Nat) : Mapper004 :=
  if 0x6000 ≤ address ∧ address < 0x8000 then
    if m.prgRamEnabled ∧ !m.prgRamWriteProtect then
      { m with prgRam := fun i =>
          if i = address - 0x6000 then data &&& 0xFF else m.prgRam i }
    else m
  else if address < 0x8000 then m
  else
    let r := address &&& 1
    let base := address &&& 0xE000
    if base = 0x8000 then
      if r = 0 then
        Mapper004.updateBanks
          { m with prgMode := (data >>> 6) &&& 1,
                   chrMode := (data >>> 7) &&& 1,
                   bankSelect := data &&& 7 }
      else
        Mapper004.updateBanks
          { m with reg := fun i =>
              if i = m.bankSelect then data &&& 0xFF else m.reg i }
    else if base = 0xA000 then
      if r = 0 then m
      else
        { m with prgRamEnabled := data &&& 0x80 ≠ 0,
                 prgRamWriteProtect := data &&& 0x40 ≠ 0 }
    else if base = 0xC000 then
      if r = 0 then { m with irqLatch := data }
      else { m with irqReload := true }
    else if base = 0xE000 then
      if r = 0 then { m with irqEnabled := false }
      else { m with irqEnabled := true }
    else m

/-- Mapper004.cpuRead (part_003 lines 140-152).  A disabled PRG-RAM read
returns the open-bus-style value `(address >> 8) & 0xFF`. -/
def Mapper004.cpuRead (m : Mapper004) (address : Nat) : Option Nat :=
  if 0x6000 ≤ address ∧ address < 0x8000 then
    if !m.prgRamEnabled then some ((address >>> 8) &&& 0xFF)
    else some (m.prgRam (address - 0x6000))
  else if 0x8000 ≤ address then
    some (m.prgData (m.prgOffsets ((address >>> 13) &&& 0x03)
                      + (address &&& 0x1FFF)))
  else none

/-- Mapper004.clockScanline (part_003 lines 214-227), clocked on each A12
rising edge.  The returned Bool records whether the CPU IRQ was asserted
(nes.cpu.requestIrq(IRQ_NORMAL) at line 224). -/
def Mapper004.clockScanline (m : Mapper004) : Mapper004 × Bool :=
  if m.irqCounter = 0 ∨ m.irqReload then
    ({ m with irqCounter := m.irqLatch, irqReload := false }, false)
  else
    let c := m.irqCounter - 1
    ({ m with irqCounter := c }, c = 0 ∧ m.irqEnabled)

/-- Entries of the 256-entry opcode table exactly as the setOp calls in
buildOpData (compatibility.js lines 598-704) record them, in source
order: (opcode, instruction-id, addressing-mode, byte-size, base-cycles)
with the addressing modes numbered ZP=0, REL=1, IMP=2, ABS=3, ACC=4,
IMM=5, ZPX=6, ZPY=7, ABSX=8, ABSY=9, PRE=10, POST=11, IND=12. -/
def opdataEntries : List (Nat × Nat × Nat × Nat × Nat) :=
  [
   (105, 0, 5, 2, 2), (101, 0, 0, 2, 3), (117, 0, 6, 2, 4), (109, 0, 3, 3, 4), (125, 0, 8, 3, 4), (121, 0, 9, 3, 4),
   (97, 0, 10, 2, 6), (113, 0, 11, 2, 5), (41, 1, 5, 2, 2), (37, 1, 0, 2, 3), (53, 1, 6, 2, 4), (45, 1, 3, 3, 4),
   (61, 1, 8, 3, 4), (57, 1, 9, 3, 4), (33, 1, 10, 2, 6), (49, 1, 11, 2, 5), (10, 2, 4, 1, 2), (6, 2, 0, 2, 5),
   (22, 2, 6, 2, 6), (14, 2, 3, 3, 6), (30, 2, 8, 3, 7), (144, 3, 1, 2, 2), (176, 4, 1, 2, 2), (240, 5, 1, 2, 2),
   (36, 6, 0, 2, 3), (44, 6, 3, 3, 4), (48, 7, 1, 2, 2), (208, 8, 1, 2, 2), (16, 9, 1, 2, 2), (0, 10, 2, 1, 7),
   (80, 11, 1, 2, 2), (112, 12, 1, 2, 2), (24, 13, 2, 1, 2), (216, 14, 2, 1, 2), (88, 15, 2, 1, 2), (184, 16, 2, 1, 2),
   (201, 17, 5, 2, 2), (197, 17, 0, 2, 3), (213, 17, 6, 2, 4), (205, 17, 3, 3, 4), (221, 17, 8, 3, 4), (217, 17, 9, 3, 4),
   (193, 17, 10, 2, 6), (209, 17, 11, 2, 5), (224, 18, 5, 2, 2), (228, 18, 0, 2, 3), (236, 18, 3, 3, 4), (192, 19, 5, 2, 2),
   (196, 19, 0, 2, 3), (204, 19, 3, 3, 4), (198, 20, 0, 2, 5), (214, 20, 6, 2, 6), (206, 20, 3, 3, 6), (222, 20, 8, 3, 7),
   (202, 21, 2, 1, 2), (136, 22, 2, 1, 2), (73, 23, 5, 2, 2), (69, 23, 0, 2, 3), (85, 23, 6, 2, 4), (77, 23, 3, 3, 4),
   (93, 23, 8, 3, 4), (89, 23, 9, 3, 4), (65, 23, 10, 2, 6), (81, 23, 11, 2, 5), (230, 24, 0, 2, 5), (246, 24, 6, 2, 6),
   (238, 24, 3, 3, 6), (254, 24, 8, 3, 7), (232, 25, 2, 1, 2), (200, 26, 2, 1, 2), (76, 27, 3, 3, 3), (108, 27, 12, 3, 5),
   (32, 28, 3, 3, 6), (169, 29, 5, 2, 2), (165, 29, 0, 2, 3), (181, 29, 6, 2, 4), (173, 29, 3, 3, 4), (189, 29, 8, 3, 4),
   (185, 29, 9, 3, 4), (161, 29, 10, 2, 6), (177, 29, 11, 2, 5), (162, 30, 5, 2, 2), (166, 30, 0, 2, 3), (182, 30, 7, 2, 4),
   (174, 30, 3, 3, 4), (190, 30, 9, 3, 4), (160, 31, 5, 2, 2), (164, 31, 0, 2, 3), (180, 31, 6, 2, 4), (172, 31, 3, 3, 4),
   (188, 31, 8, 3, 4), (74, 32, 4, 1, 2), (70, 32, 0, 2, 5), (86, 32, 6, 2, 6), (78, 32, 3, 3, 6), (94, 32, 8, 3, 7),
   (26, 33, 2, 1, 2), (58, 33, 2, 1, 2), (90, 33, 2, 1, 2), (122, 33, 2, 1, 2), (218, 33, 2, 1, 2), (234, 33, 2, 1, 2),
   (250, 33, 2, 1, 2), (9, 34, 5, 2, 2), (5, 34, 0, 2, 3), (21, 34, 6, 2, 4), (13, 34, 3, 3, 4), (29, 34, 8, 3, 4),
   (25, 34, 9, 3, 4), (1, 34, 10, 2, 6), (17, 34, 11, 2, 5), (72, 35, 2, 1, 3), (8, 36, 2, 1, 3), (104, 37, 2, 1, 4),
   (40, 38, 2, 1, 4), (42, 39, 4, 1, 2), (38, 39, 0, 2, 5), (54, 39, 6, 2, 6), (46, 39, 3, 3, 6), (62, 39, 8, 3, 7),
   (106, 40, 4, 1, 2), (102, 40, 0, 2, 5), (118, 40, 6, 2, 6), (110, 40, 3, 3, 6), (126, 40, 8, 3, 7), (64, 41, 2, 1, 6),
   (96, 42, 2, 1, 6), (233, 43, 5, 2, 2), (229, 43, 0, 2, 3), (245, 43, 6, 2, 4), (237, 43, 3, 3, 4), (253, 43, 8, 3, 4),
   (249, 43, 9, 3, 4), (225, 43, 10, 2, 6), (241, 43, 11, 2, 5), (56, 44, 2, 1, 2), (248, 45, 2, 1, 2), (120, 46, 2, 1, 2),
   (133, 47, 0, 2, 3), (149, 47, 6, 2, 4), (141, 47, 3, 3, 4), (157, 47, 8, 3, 5), (153, 47, 9, 3, 5), (129, 47, 10, 2, 6),
   (145, 47, 11, 2, 6), (134, 48, 0, 2, 3), (150, 48, 7, 2, 4), (142, 48, 3, 3, 4), (132, 49, 0, 2, 3), (148, 49, 6, 2, 4),
   (140, 49, 3, 3, 4), (170, 50, 2, 1, 2), (168, 51, 2, 1, 2), (186, 52, 2, 1, 2), (138, 53, 2, 1, 2), (154, 54, 2, 1, 2),
   (152, 55, 2, 1, 2), (75, 56, 5, 2, 2), (11, 56, 5, 2, 2), (43, 56, 5, 2, 2), (107, 56, 5, 2, 2), (203, 56, 5, 2, 2),
   (163, 57, 10, 2, 6), (167, 57, 0, 2, 3), (175, 57, 3, 3, 4), (179, 57, 11, 2, 5), (183, 57, 7, 2, 4), (191, 57, 9, 3, 4),
   (131, 58, 10, 2, 6), (135, 58, 0, 2, 3), (143, 58, 3, 3, 4), (151, 58, 7, 2, 4), (195, 59, 10, 2, 8), (199, 59, 0, 2, 5),
   (207, 59, 3, 3, 6), (211, 59, 11, 2, 8), (215, 59, 6, 2, 6), (219, 59, 9, 3, 7), (223, 59, 8, 3, 7), (227, 60, 10, 2, 8),
   (231, 60, 0, 2, 5), (239, 60, 3, 3, 6), (243, 60, 11, 2, 8), (247, 60, 6, 2, 6), (251, 60, 9, 3, 7), (255, 60, 8, 3, 7),
   (35, 61, 10, 2, 8), (39, 61, 0, 2, 5), (47, 61, 3, 3, 6), (51, 61, 11, 2, 8), (55, 61, 6, 2, 6), (59, 61, 9, 3, 7),
   (63, 61, 8, 3, 7), (99, 62, 10, 2, 8), (103, 62, 0, 2, 5), (111, 62, 3, 3, 6), (115, 62, 11, 2, 8), (119, 62, 6, 2, 6),
   (123, 62, 9, 3, 7), (127, 62, 8, 3, 7), (3, 63, 10, 2, 8), (7, 63, 0, 2, 5), (15, 63, 3, 3, 6), (19, 63, 11, 2, 8),
   (23, 63, 6, 2, 6), (27, 63, 9, 3, 7), (31, 63, 8, 3, 7), (67, 64, 10, 2, 8), (71, 64, 0, 2, 5), (79, 64, 3, 3, 6),
   (83, 64, 11, 2, 8), (87, 64, 6, 2, 6), (91, 64, 9, 3, 7), (95, 64, 8, 3, 7), (128, 68, 5, 2, 2), (130, 68, 5, 2, 2),
   (137, 68, 5, 2, 2), (194, 68, 5, 2, 2), (226, 68, 5, 2, 2), (12, 69, 8, 3, 4), (28, 69, 8, 3, 4), (60, 69, 8, 3, 4),
   (92, 69, 8, 3, 4), (124, 69, 8, 3, 4), (220, 69, 8, 3, 4), (252, 69, 8, 3, 4), (4, 69, 0, 2, 3), (68, 69, 0, 2, 3),
   (100, 69, 0, 2, 3), (20, 69, 6, 2, 4), (52, 69, 6, 2, 4), (84, 69, 6, 2, 4), (116, 69, 6, 2, 4), (212, 69, 6, 2, 4),
   (244, 69, 6, 2, 4)]

/-- Encoding used by setOp (compatibility.js line 604):
instruction-id | mode << 8 | size << 16 | cycles << 24. -/
def encodeOp (inst addr size cycles : Nat) : Nat :=
  (inst &&& 0xff) ||| ((addr &&& 0xff) <<< 8) ||| ((size &&& 0xff) <<< 16)
    ||| ((cycles &&& 0xff) <<< 24)

/-- The opcode table built by buildOpData: each listed opcode carries its
setOp entry (no opcode is set twice, see `opdataEntries_nodup`), every
other opcode defaults to NOP IMP, size 1, 2 cycles (lines 697-702). -/
def opdata (op : Nat) : Nat :=
  match opdataEntries.find? (fun e => e.1 = op) with
  | some (_, inst, addr, size, cycles) => encodeOp inst addr size cycles
  | none => encodeOp 33 2 1 2

/-- Instruction id of an opcode: `opinf & 0xff` (line 372). -/
def instructionType (op : Nat) : Nat := opdata op &&& 0xff

/-- Addressing mode of an opcode: `(opinf >> 8) & 0xff` (line 305). -/
def addrMode (op : Nat) : Nat := (opdata op >>> 8) &&& 0xff

/-- Base cycle count of an opcode: `opinf >> 24` (line 304). -/
def baseCycles (op : Nat) : Nat := opdata op >>> 24

/-- Instruction ids that take the page-cross penalty (compatibility.js
line 373); the code comments them as ADC, AND, CMP, EOR, LDA, LDX, LDY,
ORA, SBC, LAX. -/
def readInstructionsWithPenalty : List Nat :=
  [0, 1, 17, 23, 29, 30, 31, 34, 43, 60]

/-- Page-cross test used by the ABSX/ABSY/POST addressing cases
(lines 327, 335, 353): the high byte of the base address differs from
the high byte of base + index. -/
def pageCrossed (base idx : Nat) : Bool :=
  decide ((base &&& 0xff00) ≠ ((base + idx) &&& 0xff00))

/-- The pageCrossCycles variable of CPU.emulate: set to 1 only inside the
ABSX (8), ABSY (9) and POST (11) addressing cases when the indexed
effective address crosses a page (lines 325-359). -/
def pageCrossCycles (op base idx : Nat) : Nat :=
  if (addrMode op = 8 ∨ addrMode op = 9 ∨ addrMode op = 11)
      ∧ pageCrossed base idx = true then 1 else 0

/-- The dummy read issued during indexed addressing on a page cross
(lines 329, 337, 355): a read from the pre-fixup address, the old page
combined with the un-carried low byte of base + index. -/
def pageCrossDummyRead (op base idx : Nat) : Option Nat :=
  if (addrMode op = 8 ∨ addrMode op = 9 ∨ addrMode op = 11)
      ∧ pageCrossed base idx = true then
    some ((base &&& 0xff00) ||| ((base + idx) &&& 0xff))
  else none

/-- Cycle count returned by CPU.emulate for a non-branch instruction:
base cycles plus the page-cross penalty, added only for the instruction
ids of `readInstructionsWithPenalty` (lines 304, 480-484; branchCycles
is 0 for every non-branch instruction). -/
def instrCycles (op base idx : Nat) : Nat :=
  baseCycles op +
    (if readInstructionsWithPenalty.contains (instructionType op) then
      pageCrossCycles op base idx
    else 0)

/-- Mutual-exclusion invariant on a button-state byte: Up (bit 4) and
Down (bit 5) are never both set, nor Left (bit 6) and Right (bit 7). -/
def noOpposites (s : Nat) : Prop :=
  ¬(s.testBit 4 = true ∧ s.testBit 5 = true) ∧
  ¬(s.testBit 6 = true ∧ s.testBit 7 = true)

instance (s : Nat) : Decidable (noOpposites s) := by
  unfold noOpposites
  infer_instance

/-- Concrete MMC3 state used to instantiate universally quantified
theorems: IRQ counter 1, latch 5, IRQ enabled, reload clear, PRG-RAM
enabled and writable, 8 x 1 KiB CHR banks and 4 x 8 KiB PRG banks. -/
def sampleM4 : Mapper004 :=
  { reg := fun _ => 0, prgMode := 0, chrMode := 0, bankSelect := 0,
    irqEnabled := true, irqCounter := 1, irqLatch := 5, irqReload := false,
    prgRamEnabled := true, prgRamWriteProtect := false,
    prgRam := fun _ => 0, prgData := fun _ => 0,
    prgOffsets := fun _ => 0, chrOffsets := fun _ => 0,
    chr1kBankCount := 8, prg8kBankCount := 4 }

/-- Concrete NROM state used to instantiate universally quantified
theorems. -/
def sampleM0 : Mapper000 :=
  { prgRam := fun _ => 0, prgData := fun _ => 0, hasPrgData := true,
    prgBankCount := 2, prgPagesMap := fun slot => (slot &&& 0x03) * 0x2000 }

/-- Concrete CNROM state used to instantiate universally quantified
theorems; its PRG page map is the one updateBanks installs for a 32 KiB
cartridge, and its PRG ROM holds the byte 0x02 everywhere. -/
def sampleM3 : Mapper003 :=
  { chrBank := 0, prgData := fun _ => 0x02,
    prgPagesMap := fun slot => 0 * 0x8000 + (slot &&& 0x03) * 0x2000,
    chrPagesMap := fun slot => 0 * 0x2000 + (slot &&& 0x07) * 0x400,
    prg32kBankCount := 1, prg16kBankCount := 2 }

/-- Concrete device oracles used to instantiate universally quantified
theorems: no APU value, no mapper value, PPU registers read 0. -/
def sampleDevices : Devices :=
  { ppuReadReg := fun _ => 0, papuPresent := true,
    papuReadReg := fun _ => none, mmapRead := fun _ => none,
    zapperLight := false, zapperFired := false }

/-- Concrete CPU bus state used to instantiate universally quantified
theorems. -/
def sampleBus : CpuBus :=
  { mem := fun _ => 0, dataBus := 0x37,
    controller1 := Controller.mk 0xA5 0xA5 0 0,
    controller2 := Controller.powerOn,
    controller1Read := false, controller2Read := false }

theorem or64_and64 (r : Nat) : (0x40 ||| r) &&& 0x40 = 0x40 := by
  apply Nat.eq_of_testBit_eq
  intro i
  rw [Nat.testBit_and, Nat.testBit_lor]
  cases h : Nat.testBit 0x40 i <;> simp [h]

theorem byte_and_ff (b : Nat) (hb : b < 256) : b &&& 0xFF = b :=
  Nat.and_pow_two_sub_one_of_lt_two_pow (n := 8) (by omega)

theorem opdataEntries_nodup : (opdataEntries.map (fun e => e.1)).Nodup := by
  decide

/-- Claim C1: on every A12 rising-edge clock of the MMC3, if the internal
IRQ counter is zero or the reload flag is set, the counter is loaded from
the latch and the reload flag is cleared (and no IRQ is asserted);
otherwise the counter is decremented; and the CPU IRQ is asserted exactly
when the counter goes from 1 to 0 by that decrement with IRQ enabled. -/
theorem mmc3_clockScanline_spec (m : Mapper004) :
    ((m.irqCounter = 0 ∨ m.irqReload = true) →
      m.clockScanline.1.irqCounter = m.irqLatch ∧
      m.clockScanline.1.irqReload = false ∧
      m.clockScanline.2 = false) ∧
    ((m.irqCounter ≠ 0 ∧ m.irqReload = false) →
      m.clockScanline.1.irqCounter = m.irqCounter - 1 ∧
      m.clockScanline.1.irqReload = false) ∧
    (m.clockScanline.2 = true ↔
      m.irqCounter = 1 ∧ m.irqReload = false ∧ m.irqEnabled = true) := by
  unfold Mapper004.clockScanline
  split
  case isTrue h =>
    refine ⟨fun _ => ⟨rfl, rfl, rfl⟩, ?_, ?_⟩
    · rintro ⟨hc, hr⟩
      rcases h with h | h
      · exact absurd h hc
      · simp [hr] at h
    · constructor
      · intro hf
        cases hf
      · rintro ⟨h1, h2, _⟩
        rcases h with h | h
        · omega
        · simp [h2] at h
  case isFalse h =>
    push_neg at h
    obtain ⟨h1, h2⟩ := h
    have h2' : m.irqReload = false := by
      cases hr : m.irqReload
      · rfl
      · exact absurd hr h2
    refine ⟨?_, fun _ => ⟨rfl, h2'⟩, ?_⟩
    · rintro (hc | hr)
      · exact absurd hc h1
      · exact absurd hr h2
    · simp only [decide_eq_true_eq]
      constructor
      · rintro ⟨hz, he⟩
        exact ⟨by omega, h2', he⟩
      · rintro ⟨hc, _, he⟩
        exact ⟨by omega, he⟩

/-- Claim C2, counterexample: with a NORMAL IRQ pending (irqRequested,
irqType = 0, I flag clear), the arrival of an NMI request overwrites the
slot and its acknowledgment at the next instruction boundary clears
irqRequested — the pending IRQ is discarded without any clearIrq call,
contradicting the claim that a level-triggered IRQ request survives the
arrival and acknowledgment of another interrupt kind. -/
theorem cpu_irq_discarded_by_nmi_counterexample :
    (CpuInt.mk true 0 0).irqRequested = true ∧
    ((CpuInt.mk true 0 0).requestIrq 1).irqType = 1 ∧
    ((CpuInt.mk true 0 0).requestIrq 1).dispatch.2 = some 1 ∧
    ((CpuInt.mk true 0 0).requestIrq 1).dispatch.1.irqRequested = false := by
  decide

/-- Claim C2, amended: interrupts are dispatched at instruction
boundaries from a single request slot.  A pending NORMAL IRQ is serviced
when the I flag is clear and remains requested afterwards (level
triggered, also while masked); NMI and RESET are cleared on
acknowledgment; requestIrq of NORMAL never overwrites a pending request,
while requestIrq of NMI/RESET overwrites any pending request (so a
pending IRQ can be discarded by them); clearIrq clears a pending request
of the matching kind. -/
theorem cpu_interrupt_dispatch_amended (s : CpuInt) (t : Nat) :
    (s.irqRequested = true → s.irqType = 0 → s.fInterrupt = 0 →
      s.dispatch.2 = some 0 ∧ s.dispatch.1.irqRequested = true ∧
      s.dispatch.1.fInterrupt = 1) ∧
    (s.irqRequested = true → s.irqType = 0 → s.fInterrupt ≠ 0 →
      s.dispatch = (s, none)) ∧
    (s.irqRequested = true → s.irqType = 1 →
      s.dispatch.2 = some 1 ∧ s.dispatch.1.irqRequested = false) ∧
    (s.irqRequested = true → s.irqType = 2 →
      s.dispatch.2 = some 2 ∧ s.dispatch.1.irqRequested = false) ∧
    (s.irqRequested = false → s.dispatch = (s, none)) ∧
    (s.irqRequested = true → s.requestIrq 0 = s) ∧
    (t ≠ 0 → s.requestIrq t = { s with irqRequested := true, irqType := t }) ∧
    (s.irqRequested = true → s.irqType = t → (s.clearIrq t).irqRequested = false) := by
  obtain ⟨req, ty, fi⟩ := s
  refine ⟨?_, ?_, ?_, ?_, ?_, ?_, ?_, ?_⟩
  · rintro rfl rfl h
    simp_all [CpuInt.dispatch]
  · rintro rfl rfl h
    simp_all [CpuInt.dispatch]
  · rintro rfl rfl
    simp [CpuInt.dispatch]
  · rintro rfl rfl
    simp [CpuInt.dispatch]
  · rintro rfl
    simp [CpuInt.dispatch]
  · rintro rfl
    simp [CpuInt.requestIrq]
  · intro h
    simp [CpuInt.requestIrq, h]
  · rintro rfl rfl
    simp [CpuInt.clearIrq]

/-- Claim C3: the page-cross policy fails on the code.  The LAX opcodes
($A3/$A7/$AF/$B3/$B7/$BF) are tabled with instruction id 57 — the ANC
handler — which is not in readInstructionsWithPenalty, so LAX abs,Y at
base $00FF with Y = $01 crosses a page yet takes no extra cycle; the ISC
opcodes are tabled with instruction id 60 — the LAX handler, which is in
the penalty list — so the read-modify-write ISC abs,Y does take the +1.
This evaluates the embedded code at those failing inputs. -/
theorem lax_isc_page_cross_eval :
    instructionType 0xBF = 57 ∧
    addrMode 0xBF = 9 ∧
    readInstructionsWithPenalty.contains (instructionType 0xBF) = false ∧
    pageCrossed 0x00FF 0x01 = true ∧
    instrCycles 0xBF 0x00FF 0x01 = baseCycles 0xBF ∧
    instructionType 0xFB = 60 ∧
    addrMode 0xFB = 9 ∧
    instrCycles 0xFB 0x00FF 0x01 = baseCycles 0xFB + 1 := by
  decide

/-- Claim C8: a soft reset of the MMC3 leaves the eight bank-data
registers, the bank-select index, the PRG/CHR mode bits, the IRQ
counter, latch, reload flag and enable flag, the PRG-RAM control bits
and contents, and the CHR offsets unchanged; its only effect is to
re-fix the $E000-$FFFF slot (slot 3) to the last 8 KiB PRG bank. -/
theorem mmc3_soft_reset_preserves_registers (m : Mapper004) :
    m.reset.reg = m.reg ∧
    m.reset.bankSelect = m.bankSelect ∧
    m.reset.prgMode = m.prgMode ∧
    m.reset.chrMode = m.chrMode ∧
    m.reset.irqCounter = m.irqCounter ∧
    m.reset.irqLatch = m.irqLatch ∧
    m.reset.irqReload = m.irqReload ∧
    m.reset.irqEnabled = m.irqEnabled ∧
    m.reset.prgRamEnabled = m.prgRamEnabled ∧
    m.reset.prgRamWriteProtect = m.prgRamWriteProtect ∧
    m.reset.prgRam = m.prgRam ∧
    m.reset.chrOffsets = m.chrOffsets ∧
    (∀ slot, slot ≠ 3 → m.reset.prgOffsets slot = m.prgOffsets slot) ∧
    m.reset.prgOffsets 3 = (m.prg8kBankCount - 1) <<< 13 := by
  refine ⟨rfl, rfl, rfl, rfl, rfl, rfl, rfl, rfl, rfl, rfl, rfl, rfl, ?_, ?_⟩
  · intro slot h
    simp [Mapper004.reset, h]
  · simp [Mapper004.reset]

theorem clockN_shift (n : Nat) (c : Controller) (h0 : c.strobeByte = 0)
    (h8 : c.shiftRegister ≤ 8) :
    Controller.clockN n c =
      { c with shiftRegister := min (c.shiftRegister + n) 8 } := by
  induction n generalizing c with
  | zero =>
    simp only [Controller.clockN]
    rw [Nat.add_zero, Nat.min_eq_left h8]
  | succ n ih =>
    simp only [Controller.clockN]
    by_cases h : c.shiftRegister < 8
    · have hc : c.clock = { c with shiftRegister := c.shiftRegister + 1 } := by
        simp [Controller.clock, h0, h]
      rw [hc, ih { c with shiftRegister := c.shiftRegister + 1 } h0
        (by show c.shiftRegister + 1 ≤ 8; omega)]
      congr 1
      show (c.shiftRegister + 1 + n) ⊓ 8 = (c.shiftRegister + (n + 1)) ⊓ 8
      omega
    · have hc : c.clock = c := by
        simp [Controller.clock, h]
      rw [hc, ih c h0 h8]
      congr 1
      omega

theorem strobe_edge (c : Controller) :
    (c.strobe 1).strobe 0 = Controller.mk c.currentState c.currentState 0 0 := by
  simp [Controller.strobe]

/-- Claim C4: after a 1-to-0 edge on the strobe bit latches the current
button state, the read after i clocks (i < 8) returns bit i of the
latched state in bit 0 with $40 ORed in, button A (bit 0) first; every
read from the ninth on returns 1 in bit 0 ($41); while the strobe bit is
held at 1 a read returns the live state of button A; and every
controller read has $40 (open-bus bits) ORed into the returned byte. -/
theorem controller_serial_protocol (c : Controller) (i : Nat) :
    (i < 8 →
      (Controller.clockN i ((c.strobe 1).strobe 0)).read
        = 0x40 ||| ((c.currentState >>> i) &&& 1)) ∧
    (8 ≤ i →
      (Controller.clockN i ((c.strobe 1).strobe 0)).read = 0x41) ∧
    (c.strobeByte = 1 → c.read = 0x40 ||| (c.currentState &&& 1)) ∧
    c.read &&& 0x40 = 0x40 := by
  refine ⟨?_, ?_, ?_, or64_and64 _⟩
  · intro h
    rw [strobe_edge, clockN_shift i _ rfl (Nat.zero_le 8)]
    simp [Controller.read, Nat.min_eq_left h.le, h]
  · intro h
    rw [strobe_edge, clockN_shift i _ rfl (Nat.zero_le 8)]
    simp [Controller.read, Nat.min_eq_right h]
  · intro h
    simp [Controller.read, h]

/-- Claim C4 witness: the serial protocol theorem evaluated on a
controller whose current state is $A5 at read positions 2 and 9. -/
theorem controller_serial_protocol_witness :
    (Controller.clockN 2 (((Controller.mk 0xA5 0 0 0).strobe 1).strobe 0)).read
        = 0x40 ||| ((0xA5 >>> 2) &&& 1) ∧
    (Controller.clockN 9 (((Controller.mk 0xA5 0 0 0).strobe 1).strobe 0)).read
        = 0x41 ∧
    (Controller.mk 0xA5 0 1 0).read = 0x40 ||| (0xA5 &&& 1) :=
  ⟨(controller_serial_protocol (Controller.mk 0xA5 0 0 0) 2).1 (by decide),
   (controller_serial_protocol (Controller.mk 0xA5 0 0 0) 9).2.1 (by decide),
   (controller_serial_protocol (Controller.mk 0xA5 0 1 0) 9).2.2.1 rfl⟩

/-- Claim C1 witness: the MMC3 clock theorem evaluated at a state with
counter 1, reload clear and IRQ enabled: the counter decrements to 0 and
the IRQ fires. -/
theorem mmc3_clockScanline_spec_witness :
    (sampleM4.clockScanline.1.irqCounter = sampleM4.irqCounter - 1 ∧
     sampleM4.clockScanline.1.irqReload = false) ∧
    sampleM4.clockScanline.2 = true :=
  ⟨(mmc3_clockScanline_spec sampleM4).2.1 ⟨by decide, rfl⟩,
   ((mmc3_clockScanline_spec sampleM4).2.2).mpr ⟨rfl, rfl, rfl⟩⟩

/-- Claim C2 witness: the amended dispatch theorem evaluated at a pending
NORMAL IRQ with the I flag clear, and clearIrq on a pending NMI. -/
theorem cpu_interrupt_dispatch_amended_witness :
    ((CpuInt.mk true 0 0).dispatch.2 = some 0 ∧
     (CpuInt.mk true 0 0).dispatch.1.irqRequested = true ∧
     (CpuInt.mk true 0 0).dispatch.1.fInterrupt = 1) ∧
    ((CpuInt.mk true 1 0).clearIrq 1).irqRequested = false :=
  ⟨(cpu_interrupt_dispatch_amended (CpuInt.mk true 0 0) 0).1 rfl rfl rfl,
   (cpu_interrupt_dispatch_amended (CpuInt.mk true 1 0) 1).2.2.2.2.2.2.2 rfl rfl⟩

/-- Claim C8 witness: the soft-reset theorem evaluated on the sample MMC3
state at slots 0 and 3. -/
theorem mmc3_soft_reset_preserves_registers_witness :
    sampleM4.reset.prgOffsets 0 = sampleM4.prgOffsets 0 ∧
    sampleM4.reset.prgOffsets 3 = (sampleM4.prg8kBankCount - 1) <<< 13 :=
  ⟨(mmc3_soft_reset_preserves_registers sampleM4).2.2.2.2.2.2.2.2.2.2.2.2.1
      0 (by decide),
   (mmc3_soft_reset_preserves_registers sampleM4).2.2.2.2.2.2.2.2.2.2.2.2.2⟩

/-- Claim C5: the CPU data-bus latch equals the last byte transferred on
the bus: after every cpuRead it equals the value returned, after every
cpuWrite it equals the value written, and a read with nothing driving
the bus (a mapper address with no value, or an APU register read that
yields no value) returns the current latch value. -/
theorem cpu_data_bus_latch (d : Devices) (s : CpuBus) (addr val : Nat) :
    (CpuBus.cpuRead d s addr).2.dataBus = (CpuBus.cpuRead d s addr).1 ∧
    (CpuBus.cpuWrite s addr val).dataBus = val ∧
    (0x4020 ≤ addr → d.mmapRead addr = none →
      (CpuBus.cpuRead d s addr).1 = s.dataBus) ∧
    (0x4000 ≤ addr → addr < 0x4020 → addr ≠ 0x4016 → addr ≠ 0x4017 →
      d.papuPresent = true → d.papuReadReg addr = none →
      (CpuBus.cpuRead d s addr).1 = s.dataBus) := by
  refine ⟨?_, ?_, ?_, ?_⟩
  · unfold CpuBus.cpuRead
    repeat' split
    all_goals rfl
  · unfold CpuBus.cpuWrite
    repeat' split
    all_goals rfl
  · intro h1 h2
    unfold CpuBus.cpuRead
    rw [if_neg (by omega), if_neg (by omega), if_neg (by omega)]
    simp [h2]
  · intro h1 h2 h3 h4 h5 h6
    unfold CpuBus.cpuRead
    rw [if_neg (by omega), if_neg (by omega), if_pos h2, if_neg h3,
      if_neg h4, if_pos h5]
    simp [h6]

/-- Claim C5 witness: the latch theorem evaluated at a concrete bus state
on the unmapped address $5000 and the APU address $4018 with no device
driving the bus. -/
theorem cpu_data_bus_latch_witness :
    (CpuBus.cpuRead sampleDevices sampleBus 0x5000).2.dataBus
        = (CpuBus.cpuRead sampleDevices sampleBus 0x5000).1 ∧
    (CpuBus.cpuWrite sampleBus 0x0000 0x99).dataBus = 0x99 ∧
    (CpuBus.cpuRead sampleDevices sampleBus 0x5000).1 = sampleBus.dataBus ∧
    (CpuBus.cpuRead sampleDevices sampleBus 0x4018).1 = sampleBus.dataBus :=
  ⟨(cpu_data_bus_latch sampleDevices sampleBus 0x5000 0).1,
   (cpu_data_bus_latch sampleDevices sampleBus 0x0000 0x99).2.1,
   (cpu_data_bus_latch sampleDevices sampleBus 0x5000 0).2.2.1
     (by decide) rfl,
   (cpu_data_bus_latch sampleDevices sampleBus 0x4018 0).2.2.2
     (by decide) (by decide) (by decide) (by decide) rfl rfl⟩

/-- Claim C6: for every PRG-RAM address in $6000-$7FFF and every byte,
a mapper cpuWrite followed by a cpuRead of the same address returns the
byte: unconditionally on NROM, and on MMC3 when PRG-RAM is enabled and
not write-protected. -/
theorem prg_ram_write_read_roundtrip (m0 : Mapper000) (m4 : Mapper004)
    (a b : Nat) (h1 : 0x6000 ≤ a) (h2 : a < 0x8000) (hb : b < 256) :
    (m0.cpuWrite a b).cpuRead a = some b ∧
    (m4.prgRamEnabled = true → m4.prgRamWriteProtect = false →
      (m4.cpuWrite a b).cpuRead a = some b) := by
  constructor
  · unfold Mapper000.cpuWrite Mapper000.cpuRead
    rw [if_pos ⟨h1, h2⟩, if_pos ⟨h1, h2⟩]
    simp [byte_and_ff b hb]
  · intro he hw
    have hwrite : m4.cpuWrite a b
        = { m4 with prgRam := fun i =>
              if i = a - 0x6000 then b &&& 0xFF else m4.prgRam i } := by
      unfold Mapper004.cpuWrite
      rw [if_pos ⟨h1, h2⟩, if_pos (by simp [he, hw])]
    rw [hwrite]
    unfold Mapper004.cpuRead
    rw [if_pos ⟨h1, h2⟩, if_neg (by simp [he])]
    simp [byte_and_ff b hb]

/-- Claim C6 witness: the roundtrip theorem evaluated at address $6123
and byte $AB on the sample NROM and MMC3 states. -/
theorem prg_ram_write_read_roundtrip_witness :
    (sampleM0.cpuWrite 0x6123 0xAB).cpuRead 0x6123 = some 0xAB ∧
    (sampleM4.cpuWrite 0x6123 0xAB).cpuRead 0x6123 = some 0xAB :=
  ⟨(prg_ram_write_read_roundtrip sampleM0 sampleM4 0x6123 0xAB
      (by decide) (by decide) (by decide)).1,
   (prg_ram_write_read_roundtrip sampleM0 sampleM4 0x6123 0xAB
      (by decide) (by decide) (by decide)).2 rfl rfl⟩

theorem m3_updateBanks_chrBank (m : Mapper003) :
    m.updateBanks.chrBank = m.chrBank := by
  unfold Mapper003.updateBanks
  by_cases h : m.prg32kBankCount > 0 <;>
    simp [h, Mapper003.switch32kPrgBank, Mapper003.switch16kPrgBank,
      Mapper003.switch8kChrBank]

theorem m3_updateBanks_prg_indep (m : Mapper003) (x : Nat) :
    (Mapper003.updateBanks { m with chrBank := x }).prgPagesMap
      = m.updateBanks.prgPagesMap := by
  unfold Mapper003.updateBanks
  by_cases h : m.prg32kBankCount > 0 <;>
    simp [h, Mapper003.switch32kPrgBank, Mapper003.switch16kPrgBank,
      Mapper003.switch8kChrBank]

/-- Claim C7: on CNROM, a CPU write of v to any address at or above
$8000 sets the 8 KiB CHR bank to (v AND r) masked to the low 2 bits,
where r is the PRG-ROM byte currently mapped at that address (bus
conflict, exactly the byte cpuRead returns there), while the PRG page
map — already in the fixed state updateBanks installs — is unchanged by
the write. -/
theorem cnrom_bus_conflict (m : Mapper003) (a v : Nat)
    (ha : 0x8000 ≤ a)
    (hmap : m.updateBanks.prgPagesMap = m.prgPagesMap) :
    (m.cpuWrite a v).chrBank
        = (v &&& m.prgData (m.prgPagesMap ((a >>> 13) &&& 0x03)
            + (a &&& 0x1FFF))) &&& 0x03 ∧
    m.cpuRead a
        = some (m.prgData (m.prgPagesMap ((a >>> 13) &&& 0x03)
            + (a &&& 0x1FFF))) ∧
    (m.cpuWrite a v).prgPagesMap = m.prgPagesMap := by
  refine ⟨?_, ?_, ?_⟩
  · unfold Mapper003.cpuWrite
    rw [if_pos ha, m3_updateBanks_chrBank]
  · unfold Mapper003.cpuRead
    rw [if_pos ha]
  · unfold Mapper003.cpuWrite
    rw [if_pos ha, m3_updateBanks_prg_indep, hmap]

/-- Claim C7 witness: the bus-conflict theorem evaluated on the sample
CNROM state (ROM byte $02 everywhere) writing $03 to $8000: the CHR bank
becomes $03 AND $02 = $02 and the PRG map is untouched. -/
theorem cnrom_bus_conflict_witness :
    (sampleM3.cpuWrite 0x8000 0x03).chrBank
        = (0x03 &&& sampleM3.prgData (sampleM3.prgPagesMap 0 + 0)) &&& 0x03 ∧
    (sampleM3.cpuWrite 0x8000 0x03).prgPagesMap = sampleM3.prgPagesMap :=
  ⟨(cnrom_bus_conflict sampleM3 0x8000 0x03 (by decide) rfl).1,
   (cnrom_bus_conflict sampleM3 0x8000 0x03 (by decide) rfl).2.2⟩

theorem buttonDown_preserves :
    ∀ s < 256, ∀ b < 8, noOpposites s →
      ((s ||| (1 <<< b)) &&& Controller.getDuplicateMask b) < 256 ∧
      noOpposites ((s ||| (1 <<< b)) &&& Controller.getDuplicateMask b) := by
  decide

theorem buttonUp_preserves :
    ∀ s < 256, ∀ b < 8, noOpposites s →
      (s &&& (0xFF ^^^ (1 <<< b))) < 256 ∧
      noOpposites (s &&& (0xFF ^^^ (1 <<< b))) := by
  decide

/-- Claim C9: starting from the power-on controller state, no finite
sequence of buttonDown/buttonUp calls (on the eight real buttons) ever
produces a state with both Up (bit 4) and Down (bit 5) set, or both
Left (bit 6) and Right (bit 7) set. -/
theorem controller_no_opposite_directions (evs : List ButtonEvent)
    (h : ∀ e ∈ evs, e.button < 8) :
    noOpposites (Controller.powerOn.applyEvents evs).currentState := by
  suffices main : ∀ (l : List ButtonEvent) (c : Controller),
      (∀ e ∈ l, ButtonEvent.button e < 8) → c.currentState < 256 →
      noOpposites c.currentState →
      (c.applyEvents l).currentState < 256 ∧
      noOpposites (c.applyEvents l).currentState by
    exact (main evs Controller.powerOn h (by decide) (by decide)).2
  intro l
  induction l with
  | nil =>
    intro c _ hlt hinv
    exact ⟨hlt, hinv⟩
  | cons e rest ih =>
    intro c hall hlt hinv
    cases e with
    | down b =>
      have hb : b < 8 := hall _ (List.mem_cons_self _ _)
      have step := buttonDown_preserves c.currentState hlt b hb hinv
      exact ih (c.buttonDown b)
        (fun e he => hall e (List.mem_cons_of_mem _ he)) step.1 step.2
    | up b =>
      have hb : b < 8 := hall _ (List.mem_cons_self _ _)
      have step := buttonUp_preserves c.currentState hlt b hb hinv
      exact ih (c.buttonUp b)
        (fun e he => hall e (List.mem_cons_of_mem _ he)) step.1 step.2

/-- Claim C9 witness: the mutual-exclusion theorem evaluated on the event
sequence Down(Up), Down(Down), Down(Right), Down(Left). -/
theorem controller_no_opposite_directions_witness :
    noOpposites ((Controller.powerOn.applyEvents
      [ButtonEvent.down 4, ButtonEvent.down 5,
       ButtonEvent.down 7, ButtonEvent.down 6]).currentState) :=
  controller_no_opposite_directions _ (by
    intro e he
    simp only [List.mem_cons, List.not_mem_nil, or_false] at he
    rcases he with rfl | rfl | rfl | rfl <;> decide)

theorem cpuRead_controller1 (d : Devices) (s : CpuBus) (a : Nat) :
    (CpuBus.cpuRead d s a).2.controller1 = s.controller1 := by
  unfold CpuBus.cpuRead
  repeat' split
  all_goals rfl

theorem cpuRead_controller2 (d : Devices) (s : CpuBus) (a : Nat) :
    (CpuBus.cpuRead d s a).2.controller2 = s.controller2 := by
  unfold CpuBus.cpuRead
  repeat' split
  all_goals rfl

theorem cpuRead_flag1_ne (d : Devices) (s : CpuBus) (a : Nat)
    (h : a ≠ 0x4016) :
    (CpuBus.cpuRead d s a).2.controller1Read = s.controller1Read := by
  unfold CpuBus.cpuRead
  repeat' split
  all_goals first
    | rfl
    | exact absurd (by assumption) h

theorem runReads_controller1 (d : Devices) (addrs : List Nat) :
    ∀ s : CpuBus, (CpuBus.runReads d s addrs).controller1 = s.controller1 := by
  induction addrs with
  | nil => intro s; rfl
  | cons a rest ih =>
    intro s
    show (CpuBus.runReads d (CpuBus.cpuRead d s a).2 rest).controller1
      = s.controller1
    rw [ih, cpuRead_controller1]

theorem runReads_flag1 (d : Devices) (addrs : List Nat)
    (hna : 0x4016 ∉ addrs) :
    ∀ s : CpuBus,
      (CpuBus.runReads d s addrs).controller1Read = s.controller1Read := by
  induction addrs with
  | nil => intro s; rfl
  | cons a rest ih =>
    intro s
    have ha : a ≠ 0x4016 := fun hh => hna (hh ▸ List.mem_cons_self a rest)
    have hrest : 0x4016 ∉ rest := fun hh => hna (List.mem_cons_of_mem _ hh)
    show (CpuBus.runReads d (CpuBus.cpuRead d s a).2 rest).controller1Read
      = s.controller1Read
    rw [ih hrest, cpuRead_flag1_ne d s a (fun hh => ha (by omega))]

theorem cpuRead_flag2_ne (d : Devices) (s : CpuBus) (a : Nat)
    (h : a ≠ 0x4017) :
    (CpuBus.cpuRead d s a).2.controller2Read = s.controller2Read := by
  unfold CpuBus.cpuRead
  repeat' split
  all_goals first
    | rfl
    | exact absurd (by assumption) h

theorem runReads_flag2 (d : Devices) (addrs : List Nat)
    (hna : 0x4017 ∉ addrs) :
    ∀ s : CpuBus,
      (CpuBus.runReads d s addrs).controller2Read = s.controller2Read := by
  induction addrs with
  | nil => intro s; rfl
  | cons a rest ih =>
    intro s
    have ha : a ≠ 0x4017 := fun hh => hna (hh ▸ List.mem_cons_self a rest)
    have hrest : 0x4017 ∉ rest := fun hh => hna (List.mem_cons_of_mem _ hh)
    show (CpuBus.runReads d (CpuBus.cpuRead d s a).2 rest).controller2Read
      = s.controller2Read
    rw [ih hrest, cpuRead_flag2_ne d s a (fun hh => ha (by omega))]

theorem runReads_controller2 (d : Devices) (addrs : List Nat) :
    ∀ s : CpuBus, (CpuBus.runReads d s addrs).controller2 = s.controller2 := by
  induction addrs with
  | nil => intro s; rfl
  | cons a rest ih =>
    intro s
    show (CpuBus.runReads d (CpuBus.cpuRead d s a).2 rest).controller2
      = s.controller2
    rw [ih, cpuRead_controller2]

theorem stepControllers_controller1 (s : CpuBus) :
    s.stepControllers.controller1
      = if s.controller1Read then s.controller1.clock else s.controller1 := by
  unfold CpuBus.stepControllers
  by_cases h1 : s.controller1Read <;> by_cases h2 : s.controller2Read <;>
    simp [h1, h2]

theorem stepControllers_controller2 (s : CpuBus) :
    s.stepControllers.controller2
      = if s.controller2Read then s.controller2.clock else s.controller2 := by
  unfold CpuBus.stepControllers
  by_cases h1 : s.controller1Read <;> by_cases h2 : s.controller2Read <;>
    simp [h1, h2]

theorem clock_shift_le (c : Controller) :
    c.clock.shiftRegister ≤ c.shiftRegister + 1 := by
  unfold Controller.clock
  split
  · exact Nat.le_refl _
  · exact Nat.le_succ _

/-- Claim C10: a controller read has no side effect on the serial
position — two consecutive reads of $4016 (or $4017) with no intervening
clock return the same byte and leave the controller unchanged — and over
any list of reads an instruction performs followed by stepControllers,
each controller port's shift position advances at most once, and only if
that port ($4016 for controller 1, $4017 for controller 2) was among the
addresses read. -/
theorem controller_read_no_side_effects (d : Devices) (s : CpuBus)
    (addrs : List Nat) :
    ((CpuBus.cpuRead d s 0x4016).1
        = (CpuBus.cpuRead d (CpuBus.cpuRead d s 0x4016).2 0x4016).1 ∧
     (CpuBus.cpuRead d s 0x4016).2.controller1 = s.controller1 ∧
     (CpuBus.cpuRead d s 0x4017).1
        = (CpuBus.cpuRead d (CpuBus.cpuRead d s 0x4017).2 0x4017).1 ∧
     (CpuBus.cpuRead d s 0x4017).2.controller2 = s.controller2) ∧
    ((CpuBus.runReads d s addrs).stepControllers.controller1.shiftRegister
        ≤ s.controller1.shiftRegister + 1) ∧
    (0x4016 ∉ addrs → s.controller1Read = false →
      (CpuBus.runReads d s addrs).stepControllers.controller1
        = s.controller1) ∧
    ((CpuBus.runReads d s addrs).stepControllers.controller2.shiftRegister
        ≤ s.controller2.shiftRegister + 1) ∧
    (0x4017 ∉ addrs → s.controller2Read = false →
      (CpuBus.runReads d s addrs).stepControllers.controller2
        = s.controller2) := by
  have hv16 : ∀ st : CpuBus, (CpuBus.cpuRead d st 0x4016).1
      = st.controller1.read := fun st => rfl
  have hv17 : ∀ st : CpuBus, (CpuBus.cpuRead d st 0x4017).1
      = (let ret0 := st.controller2.read
         let ret1 := if !d.zapperLight then ret0 ||| 0x08 else ret0
         if !d.zapperFired then ret1 ||| 0x10 else ret1) := fun st => rfl
  refine ⟨⟨?_, cpuRead_controller1 d s 0x4016, ?_,
    cpuRead_controller2 d s 0x4017⟩, ?_, ?_, ?_, ?_⟩
  · rw [hv16, hv16, cpuRead_controller1]
  · rw [hv17, hv17, cpuRead_controller2]
  · rw [stepControllers_controller1, runReads_controller1]
    split
    · exact clock_shift_le s.controller1
    · exact Nat.le_succ _
  · intro hna hflag
    rw [stepControllers_controller1, runReads_controller1,
      runReads_flag1 d addrs hna s, hflag]
    simp
  · rw [stepControllers_controller2, runReads_controller2]
    split
    · exact clock_shift_le s.controller2
    · exact Nat.le_succ _
  · intro hna hflag
    rw [stepControllers_controller2, runReads_controller2,
      runReads_flag2 d addrs hna s, hflag]
    simp

/-- Claim C10 witness: the no-side-effect theorem evaluated on the sample
bus state with the read list [$2002, $4017] (no $4016 read) for
controller 1 and the read list [$2002, $4016] (no $4017 read) for
controller 2. -/
theorem controller_read_no_side_effects_witness :
    (CpuBus.cpuRead sampleDevices sampleBus 0x4016).1
        = (CpuBus.cpuRead sampleDevices
            (CpuBus.cpuRead sampleDevices sampleBus 0x4016).2 0x4016).1 ∧
    (CpuBus.runReads sampleDevices sampleBus
        [0x2002, 0x4017]).stepControllers.controller1
      = sampleBus.controller1 ∧
    (CpuBus.runReads sampleDevices sampleBus
        [0x2002, 0x4016]).stepControllers.controller2
      = sampleBus.controller2 :=
  ⟨(controller_read_no_side_effects sampleDevices sampleBus []).1.1,
   (controller_read_no_side_effects sampleDevices sampleBus
      [0x2002, 0x4017]).2.2.1 (by decide) rfl,
   (controller_read_no_side_effects sampleDevices sampleBus
      [0x2002, 0x4016]).2.2.2.2 (by decide) rfl⟩
